import Mathlib

/-
Verification development for the Instagram auto-publisher dashboard.

The embedding mirrors, function by function:
* `src/app/api/instagram/publish/route.ts` (the POST handler),
* `src/components/InstagramUploader.tsx` (client-side submit and mode toggle),
* the dashboard page (`Home`) and the `ScheduledPosts` status label.

External collaborators that live outside the repository (`@/lib/env`,
`@/lib/instagram`, Cloudinary, zod's internals, JS `Date`) are passed in as
parameters: a config loader result, an upload function, a schedule function
and an ISO-conversion function.  Thrown JS errors are modelled as
`Except String` values carrying the error message.  Side effects on the two
external services are recorded in an explicit call trace so that statements
about "which calls were made, in which order, with which arguments" are
expressible.
-/

/-- A multipart `File` value.  The byte content is abstracted to an opaque
string tag; `size` mirrors the JS `File.size` byte count, which the client
checks against the 8 MB limit. -/
structure FileData where
  size : Nat
  content : String
deriving Repr, DecidableEq

/-- A value returned by `formData.get(...)` when the entry exists: either a
file or a string.  A missing entry is `Option.none` at the use site. -/
inductive FormValue where
  | file (f : FileData)
  | str (s : String)
deriving Repr, DecidableEq

/-- The multipart body seen by the server route: each named field is absent,
a string, or a file. -/
structure ServerFormData where
  image : Option FormValue
  caption : Option FormValue
  publishAt : Option FormValue
  locationId : Option FormValue
deriving Repr, DecidableEq

/-- Mirrors the route's `typeof formData.get(name) === "string"` guards:
yields the string when the entry is a string, and `none` when the entry is
absent or a file. -/
def getString : Option FormValue → Option String
  | some (FormValue.str s) => some s
  | _ => none

/-- The Cloudinary configuration subset the route reads from
`getInstagramConfig()`. -/
structure InstagramConfig where
  cloudName : String
  apiKey : String
  apiSecret : String
  uploadFolder : String
deriving Repr, DecidableEq

/-- The part of Cloudinary's `UploadApiResponse` the route consumes. -/
structure UploadResponse where
  secure_url : String
deriving Repr, DecidableEq

/-- The argument object passed to `scheduleInstagramPost` in the route:
caption, uploaded image URL, optional ISO publish time (`none` models JS
`undefined`), and optional location id (`none` models JS `null`). -/
structure ScheduleArgs where
  caption : String
  imageUrl : String
  publishAt : Option String
  locationId : Option String
deriving Repr, DecidableEq

/-- One external call made by the route, in trace order. -/
inductive CallEvent where
  | uploadCall (f : FileData)
  | scheduleCall (a : ScheduleArgs)
deriving Repr, DecidableEq

/-- A JSON response body: either an error object or the success object
carrying the creation result (abstracted to the creation id string). -/
inductive Body where
  | errorBody (msg : String)
  | successBody (creation : String)
deriving Repr, DecidableEq

/-- An HTTP response: status code plus JSON body. -/
structure Response where
  status : Nat
  body : Body
deriving Repr, DecidableEq

/-- zod v3 default message produced by `z.string().min(1)` when the string is
empty; surfaced by the route as `parsed.error.issues[0].message`. -/
def zodMinCaptionMsg : String := "String must contain at least 1 character(s)"

/-- Mirrors `parsed.data.publishAt ? new Date(parsed.data.publishAt).toISOString() : undefined`:
the JS truthiness test makes both an absent and an empty-string `publishAt`
fall to `undefined` without consulting the conversion; otherwise the ISO
conversion `toIso` is applied — and `toIso` is fallible, because
`new Date(s).toISOString()` throws a `RangeError` on strings that do not
parse as dates.  The throw propagates to the route's catch block. -/
def publishAtIsoOf (toIso : String → Except String String) :
    Option String → Except String (Option String)
  | some s => if s.isEmpty then Except.ok none else (toIso s).map some
  | none => Except.ok none

/-- The argument object the route builds for `scheduleInstagramPost` once the
upload has produced `url` and the ISO conversion has produced `pIso`: the
validated caption, the upload URL, the converted publish time, and
`locationId ?? null`. -/
def mkScheduleArgs (fd : ServerFormData) (caption : String) (url : String)
    (pIso : Option String) : ScheduleArgs :=
  { caption := caption
    imageUrl := url
    publishAt := pIso
    locationId := getString fd.locationId }

/-- The POST handler of `src/app/api/instagram/publish/route.ts`.

Parameters stand for the externals: `getConfig` is the (possibly throwing)
`getInstagramConfig()`, `upload` the Cloudinary `upload_stream` round trip,
`toIso` the `new Date(s).toISOString()` conversion, `schedule` the
`scheduleInstagramPost` call.  The result pairs the HTTP response with the
trace of external calls, in the order they were issued.

Control flow, in source order: config load (500 on throw), `image` must be a
`File` (400 otherwise), zod schema on the remaining string fields (400 with
the first issue's message), then — inside one try block — upload, ISO
conversion, schedule, 200 with the creation result; any throw from the
upload, the conversion or the schedule call lands in the catch and yields
500 with the thrown message.  A conversion throw happens after the upload
and before the schedule call, so its trace holds the upload only. -/
def postHandler (getConfig : Except String InstagramConfig)
    (upload : InstagramConfig → FileData → Except String UploadResponse)
    (toIso : String → Except String String)
    (schedule : ScheduleArgs → Except String String)
    (fd : ServerFormData) : Response × List CallEvent :=
  match getConfig with
  | Except.error reason => ({ status := 500, body := Body.errorBody reason }, [])
  | Except.ok config =>
    match fd.image with
    | some (FormValue.file f) =>
      let rawCaption : String := (getString fd.caption).getD ""
      if rawCaption.length ≥ 1 then
        match upload config f with
        | Except.error e =>
            ({ status := 500, body := Body.errorBody e }, [CallEvent.uploadCall f])
        | Except.ok u =>
          match publishAtIsoOf toIso (getString fd.publishAt) with
          | Except.error e =>
              ({ status := 500, body := Body.errorBody e }, [CallEvent.uploadCall f])
          | Except.ok pIso =>
            let args := mkScheduleArgs fd rawCaption u.secure_url pIso
            match schedule args with
            | Except.error e =>
                ({ status := 500, body := Body.errorBody e },
                 [CallEvent.uploadCall f, CallEvent.scheduleCall args])
            | Except.ok creation =>
                ({ status := 200, body := Body.successBody creation },
                 [CallEvent.uploadCall f, CallEvent.scheduleCall args])
      else
        ({ status := 400, body := Body.errorBody zodMinCaptionMsg }, [])
    | _ => ({ status := 400, body := Body.errorBody "Image file is required." }, [])

/-- The publishing mode of the client form. -/
inductive Mode where
  | immediate
  | scheduled
deriving Repr, DecidableEq

/-- The client component's `formState`: caption text, optional schedule time
(`none` models `undefined`), mode, optional location id. -/
structure ClientForm where
  caption : String
  publishAt : Option String
  mode : Mode
  locationId : Option String
deriving Repr, DecidableEq

/-- The zod transform `(value) => (value && value.length > 0 ? value : undefined)`
applied to the optional `publishAt` and `locationId` strings. -/
def normalizeOpt : Option String → Option String
  | some s => if s.isEmpty then none else some s
  | none => none

/-- The parsed form produced by a successful `formSchema.safeParse`. -/
structure ParsedForm where
  caption : String
  publishAt : Option String
  mode : Mode
  locationId : Option String
deriving Repr, DecidableEq

/-- The data part of a successful client schema parse: caption kept as is,
the two optional strings normalized to `none` when empty. -/
def normalizeForm (form : ClientForm) : ParsedForm :=
  { caption := form.caption
    publishAt := normalizeOpt form.publishAt
    mode := form.mode
    locationId := normalizeOpt form.locationId }

/-- `formSchema.safeParse` of `InstagramUploader.tsx`: caption needs
`min(1, "Caption is required")` and
`max(2200, "Instagram captions are limited to 2,200 characters.")`; the other
fields always parse (with normalization).  On failure the component surfaces
the first issue's message. -/
def formSchemaParse (form : ClientForm) : Except String ParsedForm :=
  if form.caption.length < 1 then Except.error "Caption is required"
  else if form.caption.length > 2200 then
    Except.error "Instagram captions are limited to 2,200 characters."
  else Except.ok (normalizeForm form)

/-- One entry appended to the outgoing `FormData`. -/
inductive FormField where
  | fileField (f : FileData)
  | strField (s : String)
deriving Repr, DecidableEq

/-- The multipart body `handleSubmit` builds after validation: always `image`
and `caption`; `locationId` only when the parsed value is truthy; `publishAt`
only when the mode is scheduled and the parsed value is truthy. -/
def outgoingFields (f : FileData) (p : ParsedForm) : List (String × FormField) :=
  [("image", FormField.fileField f), ("caption", FormField.strField p.caption)]
    ++ (match p.locationId with
        | some l => [("locationId", FormField.strField l)]
        | none => [])
    ++ (match p.mode, p.publishAt with
        | Mode.scheduled, some t => [("publishAt", FormField.strField t)]
        | _, _ => [])

/-- The observable outcome of one `handleSubmit` run up to the network call:
either a validation error was set and no request goes out, or a request with
the given multipart fields is sent. -/
inductive SubmitOutcome where
  | clientError (msg : String)
  | request (fields : List (String × FormField))
deriving Repr, DecidableEq

/-- `handleSubmit` of `InstagramUploader.tsx`, up to the `fetch` call.
Validation short-circuits in source order: selected file required, then
`file.size / (1024 * 1024) > 8` (the division by the power of two is exact in
JS floats, so the comparison equals `size > 8 * 1024 * 1024` on byte counts),
then the zod schema. -/
def handleSubmit (file : Option FileData) (form : ClientForm) : SubmitOutcome :=
  match file with
  | none => SubmitOutcome.clientError "Please select an image to upload."
  | some f =>
    if f.size > 8 * 1024 * 1024 then
      SubmitOutcome.clientError "Image must be smaller than 8MB."
    else
      match formSchemaParse form with
      | Except.error msg => SubmitOutcome.clientError msg
      | Except.ok parsed => SubmitOutcome.request (outgoingFields f parsed)

/-- The `onClick` of the "Publish Now" mode button: sets the mode to
immediate and clears `publishAt`. -/
def toggleImmediate (form : ClientForm) : ClientForm :=
  { form with mode := Mode.immediate, publishAt := none }

/-- The `onClick` of the "Schedule" mode button: sets the mode, keeping the
rest of the state. -/
def toggleScheduled (form : ClientForm) : ClientForm :=
  { form with mode := Mode.scheduled }

/-- `EnvStatus` as produced by `validateInstagramConfig`. -/
structure EnvStatus where
  ready : Bool
  missing : List String
deriving Repr, DecidableEq

/-- The provider's publishing quota record, as rendered by the page. -/
structure Quota where
  quota_usage : Nat
  quota_total : Nat
  quota_remaining : Nat
  reset_time : Option String
deriving Repr, DecidableEq

/-- A scheduled post as consumed by the `ScheduledPosts` component; every
field the provider may omit is optional.  Timestamps are kept abstract as
strings since only their presence matters to the claims here. -/
structure ScheduledPost where
  id : String
  caption : Option String
  media_url : Option String
  thumbnail_url : Option String
  scheduled_publish_time : Option String
  timestamp : Option String
  status_code : Option String
  status : Option String
  is_published : Bool
  permalink : Option String
deriving Repr, DecidableEq

/-- What the dashboard `Home` component computes before rendering: the post
collection, the quota (doubly optional: fetch may yield `null`), the captured
fetch error, and whether the two fetches were attempted at all. -/
structure PageModel where
  posts : List ScheduledPost
  limit : Option Quota
  fetchError : Option String
  attempted : Bool
deriving Repr, DecidableEq

/-- The data-loading part of `Home` (the dashboard page).  When the config is
ready it awaits `Promise.all` of the two fetches; a rejection of either lands
in the single `catch`, leaving `scheduledPosts = []` and
`publishingLimit = null` and recording the error message.  `Promise.all`
rejects with whichever fetch rejected; when both reject the race winner is
not determined, modelled here as the posts fetch's message first.  When the
config is not ready neither fetch runs.  The function is total: the render
never fails. -/
def homeLoad (env : EnvStatus) (postsResult : Except String (List ScheduledPost))
    (limitResult : Except String (Option Quota)) : PageModel :=
  if env.ready then
    match postsResult, limitResult with
    | Except.ok ps, Except.ok q =>
        { posts := ps, limit := q, fetchError := none, attempted := true }
    | Except.error e, _ =>
        { posts := [], limit := none, fetchError := some e, attempted := true }
    | _, Except.error e =>
        { posts := [], limit := none, fetchError := some e, attempted := true }
  else
    { posts := [], limit := none, fetchError := none, attempted := false }

/-- The status label of `ScheduledPosts`:
`post.status_code ?? post.status ?? (post.is_published ? "PUBLISHED" : "SCHEDULED")`.
JS `??` falls through on `null`/`undefined` only, never on the empty
string. -/
def statusLabel (p : ScheduledPost) : String :=
  match p.status_code with
  | some s => s
  | none =>
    match p.status with
    | some s => s
    | none => if p.is_published then "PUBLISHED" else "SCHEDULED"

/-- Written from the spec sentence, for comparison with `statusLabel`: the
status label is the first non-EMPTY value among statusCode, status and the
value derived from isPublished. -/
def specStatusLabel (p : ScheduledPost) : String :=
  match normalizeOpt p.status_code with
  | some s => s
  | none =>
    match normalizeOpt p.status with
    | some s => s
    | none => if p.is_published then "PUBLISHED" else "SCHEDULED"

/-- Concrete config used by witnesses. -/
def cfgW : InstagramConfig :=
  { cloudName := "demo-cloud", apiKey := "key", apiSecret := "secret",
    uploadFolder := "instagram-agent" }

/-- Concrete file used by witnesses. -/
def fileW : FileData := { size := 1024, content := "png-bytes" }

/-- Witness upload behavior that always succeeds with a fixed URL. -/
def uploadOkW : InstagramConfig → FileData → Except String UploadResponse :=
  fun _ _ => Except.ok { secure_url := "https://cdn.example/a.png" }

/-- Witness schedule behavior that always succeeds with a fixed creation id. -/
def scheduleOkW : ScheduleArgs → Except String String :=
  fun _ => Except.ok "creation-1"


/-- Witness ISO conversion that always succeeds, returning the string
unchanged. -/
def okIso : String → Except String String := fun s => Except.ok s

/-- ISO conversion behavior on an unparseable date string:
`new Date("not-a-date").toISOString()` throws `RangeError: Invalid time
value`. -/
def throwIso : String → Except String String :=
  fun _ => Except.error "Invalid time value"

/-- Concrete well-formed multipart body used by witnesses. -/
def fdW : ServerFormData :=
  { image := some (FormValue.file fileW),
    caption := some (FormValue.str "Hello"),
    publishAt := none, locationId := none }

/-- Concrete multipart body whose `publishAt` field is an unparseable date
string; it passes the server schema (`z.string().optional()`). -/
def fdBadDate : ServerFormData :=
  { image := some (FormValue.file fileW),
    caption := some (FormValue.str "Hello"),
    publishAt := some (FormValue.str "not-a-date"), locationId := none }

/-- Counterexample to claim C1 as stated: this request passes config, image
and schema validation, its upload succeeds, and its schedule behavior never
throws — yet the response is 500, not 200, and the trace holds no schedule
call: the ISO conversion of `publishAt = "not-a-date"` throws inside the try
block, after the upload and before the (never reached) schedule call. -/
theorem c1_conversion_throw_counterexample :
    uploadOkW cfgW fileW = Except.ok { secure_url := "https://cdn.example/a.png" } ∧
    postHandler (Except.ok cfgW) uploadOkW throwIso scheduleOkW fdBadDate =
      ({ status := 500, body := Body.errorBody "Invalid time value" },
       [CallEvent.uploadCall fileW]) :=
  ⟨rfl, rfl⟩

/-- Claim C1 amended: for every request passing config, image and schema
validation, the route uploads first; if the upload throws, it answers 500
with the thrown message and makes no schedule call; if the ISO conversion of
the publish time throws, it likewise answers 500 with no schedule call;
otherwise `scheduleInstagramPost` is called exactly once with the URL the
upload returned — 200 with the success body when it succeeds, 500 with the
thrown message when it throws.  In every trace the upload strictly precedes
any schedule call. -/
theorem c1_amended_publish_pipeline
    (cfg : InstagramConfig) (fd : ServerFormData) (f : FileData) (s : String)
    (toIso : String → Except String String)
    (upload : InstagramConfig → FileData → Except String UploadResponse)
    (schedule : ScheduleArgs → Except String String)
    (himg : fd.image = some (FormValue.file f))
    (hcap : getString fd.caption = some s) (hs : s.length ≥ 1) :
    (∀ e, upload cfg f = Except.error e →
      postHandler (Except.ok cfg) upload toIso schedule fd =
        ({ status := 500, body := Body.errorBody e }, [CallEvent.uploadCall f])) ∧
    (∀ u e, upload cfg f = Except.ok u →
      publishAtIsoOf toIso (getString fd.publishAt) = Except.error e →
      postHandler (Except.ok cfg) upload toIso schedule fd =
        ({ status := 500, body := Body.errorBody e }, [CallEvent.uploadCall f])) ∧
    (∀ u pIso creation, upload cfg f = Except.ok u →
      publishAtIsoOf toIso (getString fd.publishAt) = Except.ok pIso →
      schedule (mkScheduleArgs fd s u.secure_url pIso) = Except.ok creation →
      postHandler (Except.ok cfg) upload toIso schedule fd =
        ({ status := 200, body := Body.successBody creation },
         [CallEvent.uploadCall f,
          CallEvent.scheduleCall (mkScheduleArgs fd s u.secure_url pIso)])) ∧
    (∀ u pIso e, upload cfg f = Except.ok u →
      publishAtIsoOf toIso (getString fd.publishAt) = Except.ok pIso →
      schedule (mkScheduleArgs fd s u.secure_url pIso) = Except.error e →
      postHandler (Except.ok cfg) upload toIso schedule fd =
        ({ status := 500, body := Body.errorBody e },
         [CallEvent.uploadCall f,
          CallEvent.scheduleCall (mkScheduleArgs fd s u.secure_url pIso)])) ∧
    (∀ (u : UploadResponse) (pIso : Option String),
      (mkScheduleArgs fd s u.secure_url pIso).imageUrl = u.secure_url) := by
  refine ⟨?_, ?_, ?_, ?_, fun u pIso => rfl⟩
  · intro e hup
    simp [postHandler, himg, hcap, hs, hup]
  · intro u e hup hconv
    simp [postHandler, himg, hcap, hs, hup, hconv]
  · intro u pIso creation hup hconv hsch
    simp [postHandler, himg, hcap, hs, hup, hconv, hsch]
  · intro u pIso e hup hconv hsch
    simp [postHandler, himg, hcap, hs, hup, hconv, hsch]

/-- Witness for the amended C1 at a concrete successful request. -/
theorem c1_amended_publish_pipeline_witness :
    postHandler (Except.ok cfgW) uploadOkW okIso scheduleOkW fdW =
      ({ status := 200, body := Body.successBody "creation-1" },
       [CallEvent.uploadCall fileW,
        CallEvent.scheduleCall
          (mkScheduleArgs fdW "Hello" "https://cdn.example/a.png" none)]) :=
  (c1_amended_publish_pipeline cfgW fdW fileW "Hello" okIso uploadOkW scheduleOkW
      rfl rfl (by decide)).2.2.1
    { secure_url := "https://cdn.example/a.png" } none "creation-1" rfl rfl rfl

/-- Claim C2: with a loadable config, a request whose `image` field is absent
or not a file is answered 400 with the fixed message, and no external call is
made (empty trace). -/
theorem c2_missing_image
    (cfg : InstagramConfig) (fd : ServerFormData)
    (toIso : String → Except String String)
    (upload : InstagramConfig → FileData → Except String UploadResponse)
    (schedule : ScheduleArgs → Except String String)
    (himg : ∀ f, fd.image ≠ some (FormValue.file f)) :
    postHandler (Except.ok cfg) upload toIso schedule fd =
      ({ status := 400, body := Body.errorBody "Image file is required." }, []) := by
  cases hi : fd.image with
  | none => simp [postHandler, hi]
  | some v =>
    cases v with
    | file f => exact absurd hi (himg f)
    | str s => simp [postHandler, hi]

/-- Witness for C2: the image field absent entirely. -/
theorem c2_missing_image_witness :
    postHandler (Except.ok cfgW) uploadOkW okIso scheduleOkW
      { image := none, caption := some (FormValue.str "Hello"),
        publishAt := none, locationId := none } =
      ({ status := 400, body := Body.errorBody "Image file is required." }, []) :=
  c2_missing_image cfgW _ okIso uploadOkW scheduleOkW (by intro f h; cases h)

/-- Concrete multipart body whose `publishAt` field is present but empty. -/
def fdEmptyPub : ServerFormData :=
  { image := some (FormValue.file fileW),
    caption := some (FormValue.str "Hello"),
    publishAt := some (FormValue.str ""), locationId := none }

/-- Counterexample to claim C3 as stated: in this validated request the
`publishAt` field is present (the string `""`), yet the schedule call
receives no publish time at all rather than the present value carried
through as an ISO timestamp — JS truthiness drops the empty string before
the conversion is ever consulted. -/
theorem c3_passthrough_counterexample :
    getString fdEmptyPub.publishAt = some "" ∧
    (postHandler (Except.ok cfgW) uploadOkW okIso scheduleOkW fdEmptyPub).2 =
      [CallEvent.uploadCall fileW,
       CallEvent.scheduleCall
         { caption := "Hello", imageUrl := "https://cdn.example/a.png",
           publishAt := none, locationId := none }] ∧
    ({ caption := "Hello", imageUrl := "https://cdn.example/a.png",
       publishAt := none, locationId := none } : ScheduleArgs).publishAt ≠
      some "" := by
  refine ⟨rfl, rfl, by decide⟩

/-- Claim C3 amended: for a validated request whose upload succeeded and
whose ISO conversion did not throw, the one schedule call receives: the
successful conversion of `publishAt` when that field is present and
non-empty, no publish time when it is absent (and, per C10, when it is the
empty string), and the `locationId` passed through as given (null when
absent).  When the conversion throws instead, the route answers 500 with no
schedule call (per the amended C1). -/
theorem c3_amended_publish_fields
    (cfg : InstagramConfig) (fd : ServerFormData) (f : FileData) (s : String)
    (u : UploadResponse) (pIso : Option String)
    (toIso : String → Except String String)
    (upload : InstagramConfig → FileData → Except String UploadResponse)
    (schedule : ScheduleArgs → Except String String)
    (himg : fd.image = some (FormValue.file f))
    (hcap : getString fd.caption = some s) (hs : s.length ≥ 1)
    (hup : upload cfg f = Except.ok u)
    (hconv : publishAtIsoOf toIso (getString fd.publishAt) = Except.ok pIso) :
    (postHandler (Except.ok cfg) upload toIso schedule fd).2 =
      [CallEvent.uploadCall f,
       CallEvent.scheduleCall (mkScheduleArgs fd s u.secure_url pIso)] ∧
    (∀ p t, getString fd.publishAt = some p → p.isEmpty = false →
      toIso p = Except.ok t → pIso = some t) ∧
    (getString fd.publishAt = none → pIso = none) ∧
    (mkScheduleArgs fd s u.secure_url pIso).locationId = getString fd.locationId := by
  refine ⟨?_, ?_, ?_, rfl⟩
  · cases hsch : schedule (mkScheduleArgs fd s u.secure_url pIso) with
    | error e => simp [postHandler, himg, hcap, hs, hup, hconv, hsch]
    | ok c => simp [postHandler, himg, hcap, hs, hup, hconv, hsch]
  · intro p t hp hne ht
    rw [hp] at hconv
    simp [publishAtIsoOf, hne, ht, Except.map] at hconv
    exact hconv.symm
  · intro hp
    rw [hp] at hconv
    simp [publishAtIsoOf] at hconv
    exact hconv.symm

/-- Concrete multipart body carrying a parseable schedule time. -/
def fdSched : ServerFormData :=
  { image := some (FormValue.file fileW),
    caption := some (FormValue.str "Hello"),
    publishAt := some (FormValue.str "2030-01-02T10:00"), locationId := none }

/-- Witness for the amended C3: a request scheduling for a concrete time. -/
theorem c3_amended_publish_fields_witness :
    (postHandler (Except.ok cfgW) uploadOkW okIso scheduleOkW fdSched).2 =
      [CallEvent.uploadCall fileW,
       CallEvent.scheduleCall (mkScheduleArgs fdSched "Hello"
         "https://cdn.example/a.png" (some "2030-01-02T10:00"))] :=
  (c3_amended_publish_fields cfgW fdSched fileW "Hello"
      { secure_url := "https://cdn.example/a.png" } (some "2030-01-02T10:00")
      okIso uploadOkW scheduleOkW rfl rfl (by decide) rfl rfl).1

/-- Helper: the success path of the route, for any validated request whose
upload, ISO conversion and schedule call all succeed. -/
theorem postHandler_success
    (cfg : InstagramConfig) (fd : ServerFormData) (f : FileData) (s : String)
    (u : UploadResponse) (pIso : Option String) (c : String)
    (toIso : String → Except String String)
    (upload : InstagramConfig → FileData → Except String UploadResponse)
    (schedule : ScheduleArgs → Except String String)
    (himg : fd.image = some (FormValue.file f))
    (hcap : getString fd.caption = some s) (hs : s.length ≥ 1)
    (hup : upload cfg f = Except.ok u)
    (hconv : publishAtIsoOf toIso (getString fd.publishAt) = Except.ok pIso)
    (hsch : schedule (mkScheduleArgs fd s u.secure_url pIso) = Except.ok c) :
    postHandler (Except.ok cfg) upload toIso schedule fd =
      ({ status := 200, body := Body.successBody c },
       [CallEvent.uploadCall f,
        CallEvent.scheduleCall (mkScheduleArgs fd s u.secure_url pIso)]) := by
  simp [postHandler, himg, hcap, hs, hup, hconv, hsch]

/-- Counterexample to claim C4 as stated: a 2201-character caption is not
rejected — with a file image and succeeding externals the endpoint answers
200, because the server schema only demands `min(1)` and has no upper
bound. -/
theorem c4_overlong_caption_counterexample :
    (String.mk (List.replicate 2201 'a')).length = 2201 ∧
    (postHandler (Except.ok cfgW) uploadOkW okIso scheduleOkW
        { image := some (FormValue.file fileW),
          caption := some (FormValue.str (String.mk (List.replicate 2201 'a'))),
          publishAt := none, locationId := none }).1.status = 200 := by
  have hlen : (String.mk (List.replicate 2201 'a')).length = 2201 := by
    rw [String.length]
    exact List.length_replicate ..
  refine ⟨hlen, ?_⟩
  rw [postHandler_success cfgW
        { image := some (FormValue.file fileW),
          caption := some (FormValue.str (String.mk (List.replicate 2201 'a'))),
          publishAt := none, locationId := none }
        fileW (String.mk (List.replicate 2201 'a'))
        { secure_url := "https://cdn.example/a.png" } none "creation-1" okIso
        uploadOkW scheduleOkW rfl rfl (by rw [hlen]; decide) rfl rfl rfl]

/-- Claim C4 amended: with a file image and a string caption, an empty
caption is answered 400 with the first zod issue's message, and every
non-empty caption passes server validation (the upload is attempted),
whatever its length: the 2,200-character cap is enforced only by the client
form, not by the endpoint. -/
theorem c4_amended_caption_validation
    (cfg : InstagramConfig) (fd : ServerFormData) (f : FileData) (s : String)
    (toIso : String → Except String String)
    (upload : InstagramConfig → FileData → Except String UploadResponse)
    (schedule : ScheduleArgs → Except String String)
    (himg : fd.image = some (FormValue.file f))
    (hcap : getString fd.caption = some s) :
    (s.length = 0 →
      postHandler (Except.ok cfg) upload toIso schedule fd =
        ({ status := 400, body := Body.errorBody zodMinCaptionMsg }, [])) ∧
    (s.length ≥ 1 →
      (postHandler (Except.ok cfg) upload toIso schedule fd).2.head? =
        some (CallEvent.uploadCall f)) := by
  constructor
  · intro h0
    simp [postHandler, himg, hcap, h0]
  · intro h1
    cases hup : upload cfg f with
    | error e => simp [postHandler, himg, hcap, h1, hup]
    | ok u =>
      cases hconv : publishAtIsoOf toIso (getString fd.publishAt) with
      | error e => simp [postHandler, himg, hcap, h1, hup, hconv]
      | ok pIso =>
        cases hsch : schedule (mkScheduleArgs fd s u.secure_url pIso) with
        | error e => simp [postHandler, himg, hcap, h1, hup, hconv, hsch]
        | ok c => simp [postHandler, himg, hcap, h1, hup, hconv, hsch]

/-- Witness for the amended C4: the empty caption is answered 400. -/
theorem c4_amended_caption_validation_witness :
    postHandler (Except.ok cfgW) uploadOkW okIso scheduleOkW
      { image := some (FormValue.file fileW),
        caption := some (FormValue.str ""),
        publishAt := none, locationId := none } =
      ({ status := 400, body := Body.errorBody zodMinCaptionMsg }, []) :=
  (c4_amended_caption_validation cfgW
      { image := some (FormValue.file fileW),
        caption := some (FormValue.str ""),
        publishAt := none, locationId := none }
      fileW "" okIso uploadOkW scheduleOkW rfl rfl).1 rfl

/-- Claim C10: a present-but-empty `publishAt` string passes the server
schema (the request is not answered 400; the upload happens) and the
schedule call receives no publish time.  Both the conversion result
`Except.ok none` and the rest of the statement hold for every conversion
function `toIso`, so the conversion is never consulted on the empty string
and can raise no error. -/
theorem c10_empty_publish_time_is_absent
    (cfg : InstagramConfig) (fd : ServerFormData) (f : FileData) (s : String)
    (u : UploadResponse)
    (toIso : String → Except String String)
    (upload : InstagramConfig → FileData → Except String UploadResponse)
    (schedule : ScheduleArgs → Except String String)
    (himg : fd.image = some (FormValue.file f))
    (hcap : getString fd.caption = some s) (hs : s.length ≥ 1)
    (hpub : getString fd.publishAt = some "")
    (hup : upload cfg f = Except.ok u) :
    publishAtIsoOf toIso (getString fd.publishAt) = Except.ok none ∧
    (postHandler (Except.ok cfg) upload toIso schedule fd).1.status ≠ 400 ∧
    (postHandler (Except.ok cfg) upload toIso schedule fd).2 =
      [CallEvent.uploadCall f,
       CallEvent.scheduleCall (mkScheduleArgs fd s u.secure_url none)] ∧
    (mkScheduleArgs fd s u.secure_url none).publishAt = none := by
  have hconv : publishAtIsoOf toIso (getString fd.publishAt) = Except.ok none := by
    rw [hpub]
    exact rfl
  refine ⟨hconv, ?_, ?_, rfl⟩
  · cases hsch : schedule (mkScheduleArgs fd s u.secure_url none) with
    | error e => simp [postHandler, himg, hcap, hs, hup, hconv, hsch]
    | ok c => simp [postHandler, himg, hcap, hs, hup, hconv, hsch]
  · cases hsch : schedule (mkScheduleArgs fd s u.secure_url none) with
    | error e => simp [postHandler, himg, hcap, hs, hup, hconv, hsch]
    | ok c => simp [postHandler, himg, hcap, hs, hup, hconv, hsch]

/-- Witness for C10 at the concrete empty-string request. -/
theorem c10_empty_publish_time_is_absent_witness :
    (postHandler (Except.ok cfgW) uploadOkW okIso scheduleOkW fdEmptyPub).1.status ≠ 400 ∧
    (mkScheduleArgs fdEmptyPub "Hello" "https://cdn.example/a.png" none).publishAt = none :=
  ⟨(c10_empty_publish_time_is_absent cfgW fdEmptyPub fileW "Hello"
      { secure_url := "https://cdn.example/a.png" } okIso uploadOkW scheduleOkW
      rfl rfl (by decide) rfl rfl).2.1,
   (c10_empty_publish_time_is_absent cfgW fdEmptyPub fileW "Hello"
      { secure_url := "https://cdn.example/a.png" } okIso uploadOkW scheduleOkW
      rfl rfl (by decide) rfl rfl).2.2.2⟩

/-- Whether the outgoing multipart body contains an entry with the given
field name. -/
def hasField (fields : List (String × FormField)) (name : String) : Bool :=
  fields.any (fun kv => kv.1 == name)

/-- Helper: a successful client schema parse always yields the normalized
form data. -/
theorem formSchemaParse_ok_eq (form : ClientForm) (p : ParsedForm)
    (h : formSchemaParse form = Except.ok p) : p = normalizeForm form := by
  unfold formSchemaParse at h
  split at h
  · cases h
  · split at h
    · cases h
    · cases h
      rfl

/-- Helper: the outgoing multipart body carries no `publishAt` entry when the
parsed mode is immediate or the parsed publish time is absent. -/
theorem outgoing_no_publish_time (f : FileData) (p : ParsedForm)
    (h : p.mode = Mode.immediate ∨ p.publishAt = none) :
    hasField (outgoingFields f p) "publishAt" = false := by
  rcases h with hm | hp
  · cases hl : p.locationId <;> cases hq : p.publishAt <;>
      simp [outgoingFields, hasField, hm, hl, hq]
  · cases hl : p.locationId <;> cases hm : p.mode <;>
      simp [outgoingFields, hasField, hm, hl, hp]

/-- Claim C5: client-side validation short-circuits in order — missing file,
then the strict 8 MB size bound, then the zod schema (caption between 1 and
2200 characters) — setting the matching error message and sending no request
on any failure; and when everything passes the request with the normalized
fields goes out. -/
theorem c5_client_validation_order :
    (∀ form, handleSubmit none form =
      SubmitOutcome.clientError "Please select an image to upload.") ∧
    (∀ f form, f.size > 8 * 1024 * 1024 →
      handleSubmit (some f) form =
        SubmitOutcome.clientError "Image must be smaller than 8MB.") ∧
    (∀ f form, f.size ≤ 8 * 1024 * 1024 → form.caption.length = 0 →
      handleSubmit (some f) form = SubmitOutcome.clientError "Caption is required") ∧
    (∀ f form, f.size ≤ 8 * 1024 * 1024 → form.caption.length > 2200 →
      handleSubmit (some f) form =
        SubmitOutcome.clientError
          "Instagram captions are limited to 2,200 characters.") ∧
    (∀ f form, f.size ≤ 8 * 1024 * 1024 →
      form.caption.length ≥ 1 → form.caption.length ≤ 2200 →
      handleSubmit (some f) form =
        SubmitOutcome.request (outgoingFields f (normalizeForm form))) := by
  refine ⟨fun form => rfl, ?_, ?_, ?_, ?_⟩
  · intro f form hsz
    simp [handleSubmit, hsz]
  · intro f form hsz h0
    simp [handleSubmit, formSchemaParse, Nat.not_lt.mpr hsz, h0]
  · intro f form hsz hlong
    have h1 : ¬ form.caption.length < 1 := by omega
    simp [handleSubmit, formSchemaParse, Nat.not_lt.mpr hsz, h1, hlong]
  · intro f form hsz h1 h2
    have h1n : ¬ form.caption.length < 1 := by omega
    have h2n : ¬ form.caption.length > 2200 := by omega
    simp [handleSubmit, formSchemaParse, Nat.not_lt.mpr hsz, h1n, h2n]

/-- Witness for C5: a file one byte over the 8 MB bound is rejected with the
size message. -/
theorem c5_client_validation_order_witness :
    handleSubmit (some { size := 8388609, content := "big" })
      { caption := "Hello", publishAt := none, mode := Mode.immediate,
        locationId := none } =
      SubmitOutcome.clientError "Image must be smaller than 8MB." :=
  c5_client_validation_order.2.1 { size := 8388609, content := "big" }
    { caption := "Hello", publishAt := none, mode := Mode.immediate,
      locationId := none } (by decide)

/-- Claim C6: a request submitted in immediate mode never carries a
`publishAt` field, and the "Publish Now" toggle both sets the mode and
clears any stored `publishAt` — so a time entered in scheduled mode and then
abandoned by toggling back cannot reach the wire. -/
theorem c6_immediate_omits_publish_time :
    (∀ f form fields, form.mode = Mode.immediate →
      handleSubmit (some f) form = SubmitOutcome.request fields →
      hasField fields "publishAt" = false) ∧
    (∀ form, (toggleImmediate form).mode = Mode.immediate ∧
      (toggleImmediate form).publishAt = none) ∧
    (∀ f form fields,
      handleSubmit (some f) (toggleImmediate form) = SubmitOutcome.request fields →
      hasField fields "publishAt" = false) := by
  have main : ∀ f form fields, form.mode = Mode.immediate →
      handleSubmit (some f) form = SubmitOutcome.request fields →
      hasField fields "publishAt" = false := by
    intro f form fields hmode hsub
    by_cases hsz : f.size > 8 * 1024 * 1024
    · simp [handleSubmit, hsz] at hsub
    · cases hp : formSchemaParse form with
      | error msg => simp [handleSubmit, hsz, hp] at hsub
      | ok p =>
        simp [handleSubmit, hsz, hp] at hsub
        have hpe : p = normalizeForm form := formSchemaParse_ok_eq form p hp
        rw [← hsub, hpe]
        exact outgoing_no_publish_time f (normalizeForm form)
          (Or.inl (by simp [normalizeForm, hmode]))
  refine ⟨main, fun form => ⟨rfl, rfl⟩, ?_⟩
  intro f form fields hsub
  exact main f (toggleImmediate form) fields rfl hsub

/-- Witness for C6: a concrete immediate-mode submission carries only the
image and caption fields. -/
theorem c6_immediate_omits_publish_time_witness :
    hasField (outgoingFields fileW (normalizeForm
      { caption := "Hello", publishAt := none, mode := Mode.immediate,
        locationId := none })) "publishAt" = false :=
  c6_immediate_omits_publish_time.1 fileW
    { caption := "Hello", publishAt := none, mode := Mode.immediate,
      locationId := none } _ rfl rfl

/-- Claim C7: in scheduled mode with no publish time chosen, the client
schema still parses successfully and the submission goes out — with no
`publishAt` entry in the multipart body; the client does not enforce a
publish-time requirement. -/
theorem c7_scheduled_without_time_submits
    (f : FileData) (form : ClientForm)
    (hmode : form.mode = Mode.scheduled) (hpub : form.publishAt = none)
    (hsize : f.size ≤ 8 * 1024 * 1024)
    (hcap1 : form.caption.length ≥ 1) (hcap2 : form.caption.length ≤ 2200) :
    formSchemaParse form = Except.ok (normalizeForm form) ∧
    handleSubmit (some f) form =
      SubmitOutcome.request (outgoingFields f (normalizeForm form)) ∧
    hasField (outgoingFields f (normalizeForm form)) "publishAt" = false := by
  have h1n : ¬ form.caption.length < 1 := by omega
  have h2n : ¬ form.caption.length > 2200 := by omega
  refine ⟨by simp [formSchemaParse, h1n, h2n], ?_, ?_⟩
  · simp [handleSubmit, formSchemaParse, Nat.not_lt.mpr hsize, h1n, h2n]
  · exact outgoing_no_publish_time f (normalizeForm form)
      (Or.inr (by simp [normalizeForm, normalizeOpt, hpub]))

/-- Witness for C7: a concrete scheduled-mode form with no time set. -/
theorem c7_scheduled_without_time_submits_witness :
    handleSubmit (some fileW)
      { caption := "Hello", publishAt := none, mode := Mode.scheduled,
        locationId := none } =
      SubmitOutcome.request (outgoingFields fileW (normalizeForm
        { caption := "Hello", publishAt := none, mode := Mode.scheduled,
          locationId := none })) :=
  (c7_scheduled_without_time_submits fileW
    { caption := "Hello", publishAt := none, mode := Mode.scheduled,
      locationId := none } rfl rfl (by decide) (by decide) (by decide)).2.1

/-- Claim C8: with ready config, a failure of either fetch leaves the page
with an empty post collection and a null quota — both discarded even when
only one fetch failed — and a single captured error string; with config not
ready the fetches are not attempted.  `homeLoad` is a total function, so the
render itself never fails. -/
theorem c8_dashboard_fetch_failure (env : EnvStatus)
    (postsResult : Except String (List ScheduledPost))
    (limitResult : Except String (Option Quota)) :
    (env.ready = true → ∀ e, postsResult = Except.error e →
      homeLoad env postsResult limitResult =
        { posts := [], limit := none, fetchError := some e, attempted := true }) ∧
    (env.ready = true → ∀ ps e, postsResult = Except.ok ps →
      limitResult = Except.error e →
      homeLoad env postsResult limitResult =
        { posts := [], limit := none, fetchError := some e, attempted := true }) ∧
    (env.ready = true → ∀ ps q, postsResult = Except.ok ps →
      limitResult = Except.ok q →
      homeLoad env postsResult limitResult =
        { posts := ps, limit := q, fetchError := none, attempted := true }) ∧
    (env.ready = false →
      homeLoad env postsResult limitResult =
        { posts := [], limit := none, fetchError := none, attempted := false }) := by
  refine ⟨?_, ?_, ?_, ?_⟩
  · intro hr e hp
    simp [homeLoad, hr, hp]
  · intro hr ps e hp hq
    simp [homeLoad, hr, hp, hq]
  · intro hr ps q hp hq
    simp [homeLoad, hr, hp, hq]
  · intro hr
    simp [homeLoad, hr]

/-- Witness for C8: the quota fetch fails while the posts fetch succeeded,
and both results are discarded. -/
theorem c8_dashboard_fetch_failure_witness :
    homeLoad { ready := true, missing := [] }
      (Except.ok [])
      (Except.error "Failed to load data from Instagram.") =
      { posts := [], limit := none,
        fetchError := some "Failed to load data from Instagram.",
        attempted := true } :=
  (c8_dashboard_fetch_failure { ready := true, missing := [] }
      (Except.ok [])
      (Except.error "Failed to load data from Instagram.")).2.1 rfl
    [] "Failed to load data from Instagram." rfl rfl

/-- A scheduled post whose `status_code` is the empty string while `status`
is a non-empty string. -/
def postCE : ScheduledPost :=
  { id := "post-1", caption := none, media_url := none, thumbnail_url := none,
    scheduled_publish_time := none, timestamp := none,
    status_code := some "", status := some "IN_PROGRESS",
    is_published := false, permalink := none }

/-- Counterexample to claim C9 as stated: the component renders the empty
`status_code` itself — JS `??` skips only null and undefined, not empty
strings — while the first non-empty candidate would be the `status` value. -/
theorem c9_status_label_counterexample :
    statusLabel postCE = "" ∧ specStatusLabel postCE = "IN_PROGRESS" ∧
    statusLabel postCE ≠ specStatusLabel postCE := by
  refine ⟨rfl, rfl, by decide⟩

/-- Claim C9 amended: the displayed status label is the first
defined (non-null, non-undefined) value among `status_code`, `status` and
the value derived from `is_published`; an empty string is displayed as is,
not skipped. -/
theorem c9_amended_status_label (p : ScheduledPost) :
    (∀ s, p.status_code = some s → statusLabel p = s) ∧
    (p.status_code = none → ∀ s, p.status = some s → statusLabel p = s) ∧
    (p.status_code = none → p.status = none →
      statusLabel p = if p.is_published then "PUBLISHED" else "SCHEDULED") := by
  refine ⟨?_, ?_, ?_⟩
  · intro s hs
    simp [statusLabel, hs]
  · intro hc s hs
    simp [statusLabel, hc, hs]
  · intro hc hs
    simp [statusLabel, hc, hs]

/-- Witness for the amended C9: the empty `status_code` is displayed. -/
theorem c9_amended_status_label_witness : statusLabel postCE = "" :=
  (c9_amended_status_label postCE).1 "" rfl
